import Mathlib

/-!
Shallow embedding of the close_call_signaling server (src/server.js, and the
admission logic of the nickname-aware variant in src/unnamed/part_000).

Socket identifiers, device identifiers, nicknames and room codes are Lean
`String`s.  JavaScript `Map`s are embedded as insertion-ordered association
lists with `Map.get` / `Map.set` / `Map.delete` semantics (`aget`, `aset`,
`adel`).  JavaScript `Set`s of socket ids are insertion-ordered duplicate-free
`List String`s (`add` appends, `delete` erases, `Array.from(s)[0]` is the
head).  Handlers return an `Effect`: the new server state, the list of emitted
socket events in emission order, and whether the handler called
`socket.disconnect()`.
-/

/-- A JavaScript value, restricted to the shapes the handlers inspect
(strings, numbers, booleans, null, undefined). -/
inductive JVal
  | vstr (s : String)
  | vnum (n : Int)
  | vbool (b : Bool)
  | vnull
  | vundefined
deriving DecidableEq

/-- JavaScript truthiness for the embedded values. -/
def JVal.truthy : JVal → Bool
  | .vstr s => !(s == "")
  | .vnum n => !(n == 0)
  | .vbool b => b
  | .vnull => false
  | .vundefined => false

/-- Embeds `Map.prototype.get`. -/
def aget {α : Type} : List (String × α) → String → Option α
  | [], _ => none
  | p :: t, k => if p.1 == k then some p.2 else aget t k

/-- Embeds `Map.prototype.set`: replace the entry in place, else append. -/
def aset {α : Type} : List (String × α) → String → α → List (String × α)
  | [], k, v => [(k, v)]
  | p :: t, k, v => if p.1 == k then (k, v) :: t else p :: aset t k v

/-- Embeds `Map.prototype.delete`. -/
def adel {α : Type} (l : List (String × α)) (k : String) : List (String × α) :=
  l.filter (fun p => !(p.1 == k))

/-- Little-endian decimal digits of `n`, with enough `fuel` (any `fuel ≥ n`). -/
def decDigits : ℕ → ℕ → List ℕ
  | 0, _ => []
  | fuel + 1, n => if n = 0 then [] else (n % 10) :: decDigits fuel (n / 10)

/-- Embeds `Number.prototype.toString` (base 10) on a natural number: decimal
digits, most significant first.  (The server only stringifies values in
`[100000, 999999]`, so the `n = 0` corner is irrelevant.) -/
def natToString (n : ℕ) : String :=
  ((decDigits n n).reverse.map Nat.digitChar).asString

/-- The regular expression test used for room codes: exactly six
ASCII digits. -/
def isSixDigitCode (s : String) : Bool :=
  (s.length == 6) && s.data.all Char.isDigit

/-- The game settings object, as destructured by `validateSettings`.
JavaScript numbers that pass `Number.isInteger` are embedded as `Int`;
a missing / non-string `password` is `none`. -/
structure Settings where
  maxUsers : Int
  answerTime : Int
  questionCount : Int
  isPrivate : Bool
  password : Option String
  roomName : String
deriving DecidableEq

/-- Embeds `validateSettings` on an object-shaped settings value. -/
def validateSettingsObj (s : Settings) : Bool :=
  (2 ≤ s.maxUsers && s.maxUsers ≤ 10) &&
  (5 ≤ s.answerTime && s.answerTime ≤ 60) &&
  (1 ≤ s.questionCount && s.questionCount ≤ 50) &&
  (!(s.roomName == "") && 3 ≤ s.roomName.length && s.roomName.length ≤ 30) &&
  (!s.isPrivate ||
    (match s.password with
     | some p => !(p == "") && (p.length == 5)
     | none => false))

/-- Embeds `validateSettings`, with `none` for an absent / non-object argument. -/
def validateSettings : Option Settings → Bool
  | none => false
  | some s => validateSettingsObj s

/-- A room record. -/
structure Room where
  id : String
  host : String
  users : List String
  settings : Settings
  gameStarted : Bool
  createdAt : ℕ
deriving DecidableEq

/-- The two module-level maps of the server: `rooms` (code → room) and
`userRooms` (socket id → room code). -/
structure ServerState where
  rooms : List (String × Room)
  userRooms : List (String × String)
deriving DecidableEq

/-- The socket events the room handlers emit.  Payloads are restricted to
the fields the specification talks about. -/
inductive SEvent
  | roomError (dst : String) (msg : String)
  | roomCreated (dst : String) (code : String)
  | existingUsersEv (dst : String) (users : List String)
  | roomJoined (dst : String) (code : String) (host : String)
  | userJoined (room : String) (sid : String)
  | userLeft (room : String) (sid : String)
  | newHost (room : String) (host : String)
  | passwordRequired (dst : String) (code : String)
  | gameStartedEv (room : String)
  | nicknameTaken (dst : String) (msg : String)
deriving DecidableEq

/-- Result of running one handler: new state, emitted events in order, and
whether the handler called `socket.disconnect()`. -/
structure Effect where
  state : ServerState
  events : List SEvent
  disconnect : Bool
deriving DecidableEq

/-- Embeds `rooms.has(code)`. -/
def hasRoom (st : ServerState) (code : String) : Bool :=
  (aget st.rooms code).isSome

/-- Embeds `removeUserFromRoom(userId, roomId)` from src/server.js lines 25-44:
delete the user from the room's set and from `userRooms`; if the set became
empty delete the room; else if the removed user was host, make the first
remaining member host and broadcast `new-host`. -/
def removeUserFromRoom (st : ServerState) (userId roomId : String) :
    ServerState × List SEvent :=
  match aget st.rooms roomId with
  | none => (st, [])
  | some room =>
    let users' := room.users.erase userId
    let ur' := adel st.userRooms userId
    if users'.length == 0 then
      (⟨adel st.rooms roomId, ur'⟩, [])
    else if room.host == userId then
      let newHost := users'.headI
      (⟨aset st.rooms roomId { room with users := users', host := newHost }, ur'⟩,
       [.newHost roomId newHost])
    else
      (⟨aset st.rooms roomId { room with users := users' }, ur'⟩, [])

/-- One draw of `generateRoomId()`: `Math.floor(100000 + Math.random()*900000)`
stringified.  `r` stands for `Math.floor(Math.random()*900000)`, so faithful
runs satisfy `r < 900000`. -/
def generateRoomId (r : ℕ) : String :=
  natToString (100000 + r)

/-- The bounded-retry generation loop of the create-room handler
(src/server.js lines 98-103): draw, and redraw while the code collides and
fewer than 10 draws were made.  `j` is the 0-based draw index, `rng j` the
j-th random draw; `fuel` only bounds the recursion and never runs out when
started at 10. -/
def genAttempts (rooms : List (String × Room)) (rng : ℕ → ℕ) :
    ℕ → ℕ → String
  | j, 0 => generateRoomId (rng j)
  | j, fuel + 1 =>
    let c := generateRoomId (rng j)
    if (aget rooms c).isSome && (j + 1 < 10 : Bool) then
      genAttempts rooms rng (j + 1) fuel
    else
      c

/-- The `create-room` payload: either not an object, or an object with an
optional `roomId` string and a `settings` value (`none` when absent or not
an object). -/
inductive CreateInput
  | notObject
  | obj (roomId : Option String) (settings : Option Settings)

/-- Shared tail of the create-room handler: build the room, store it, index
the creator, reply `room-created` and an empty `existing-users` roster. -/
def mkRoomEffect (st : ServerState) (sid : String) (s : Settings)
    (code : String) (now : ℕ) : Effect :=
  let room : Room :=
    { id := code, host := sid, users := [sid], settings := s,
      gameStarted := false, createdAt := now }
  ⟨⟨aset st.rooms code room, aset st.userRooms sid code⟩,
   [.roomCreated sid code, .existingUsersEv sid []], false⟩

/-- The `create-room` handler (src/server.js lines 73-125). -/
def createRoom (st : ServerState) (sid : String) (inp : CreateInput)
    (rng : ℕ → ℕ) (now : ℕ) : Effect :=
  match inp with
  | .notObject => ⟨st, [.roomError sid "Invalid room data"], false⟩
  | .obj roomId oset =>
    if !(validateSettings oset) then
      ⟨st, [.roomError sid "Invalid game settings"], false⟩
    else
      match oset with
      | none => ⟨st, [.roomError sid "Invalid game settings"], false⟩
      | some s =>
        match roomId with
        | some c =>
          if c == "" then
            -- a falsy requested id falls through to generation
            mkRoomEffect st sid s (genAttempts st.rooms rng 0 10) now
          else if !(isSixDigitCode c) then
            ⟨st, [.roomError sid "Room ID must be exactly 6 digits"], false⟩
          else if hasRoom st c then
            ⟨st, [.roomError sid "Room ID already exists"], false⟩
          else
            mkRoomEffect st sid s c now
        | none =>
          mkRoomEffect st sid s (genAttempts st.rooms rng 0 10) now

/-- The `join-room` payload: a bare string, an object with possibly absent
or non-string `roomId` / `password` fields, or any other value. -/
inductive JoinInput
  | jstr (s : String)
  | jobj (roomId : JVal) (password : JVal)
  | jother

/-- Room id extraction at the top of the join-room handler. -/
def extractRoomId : JoinInput → JVal
  | .jstr s => .vstr s
  | .jobj r _ => r
  | .jother => .vundefined

/-- Password extraction at the top of the join-room handler. -/
def extractPassword : JoinInput → JVal
  | .jobj _ p => p
  | _ => .vundefined

/-- The guard `!roomId || typeof roomId !== 'string' || !/^\d{6}$/.test(roomId)`. -/
def roomIdValid : JVal → Bool
  | .vstr s => !(s == "") && isSixDigitCode s
  | _ => false

/-- Strict comparison `room.settings.password === password` for a truthy
provided password value. -/
def pwMatches (stored : Option String) (given : JVal) : Bool :=
  match stored, given with
  | some p, .vstr q => p == q
  | _, _ => false

/-- The `join-room` handler (src/server.js lines 127-195). -/
def joinRoom (st : ServerState) (sid : String) (inp : JoinInput) : Effect :=
  match extractRoomId inp with
  | .vstr code =>
    if (code == "") || !(isSixDigitCode code) then
      ⟨st, [.roomError sid "Invalid room ID. Must be 6 digits."], false⟩
    else
      match aget st.rooms code with
      | none => ⟨st, [.roomError sid "Room does not exist"], false⟩
      | some room =>
        if room.settings.isPrivate && !(extractPassword inp).truthy then
          ⟨st, [.passwordRequired sid code], false⟩
        else if room.settings.isPrivate &&
            !(pwMatches room.settings.password (extractPassword inp)) then
          ⟨st, [.roomError sid "Incorrect password"], false⟩
        else if room.gameStarted then
          ⟨st, [.roomError sid "Game already in progress"], false⟩
        else if room.settings.maxUsers ≤ (room.users.length : Int) then
          ⟨st, [.roomError sid "Room is full"], false⟩
        else if room.users.contains sid then
          ⟨st, [.roomError sid "Already in room"], false⟩
        else
          let users' := room.users ++ [sid]
          let room' := { room with users := users' }
          ⟨⟨aset st.rooms code room', aset st.userRooms sid code⟩,
           [.roomJoined sid code room.host,
            .existingUsersEv sid (users'.filter (fun i => !(i == sid))),
            .userJoined code sid], false⟩
  | _ => ⟨st, [.roomError sid "Invalid room ID. Must be 6 digits."], false⟩

/-- The `leave-room` handler (src/server.js lines 222-234); the room-state
part of the `disconnect` handler (lines 324-336) is identical. -/
def leaveRoom (st : ServerState) (sid : String) : Effect :=
  match aget st.userRooms sid with
  | none => ⟨st, [], false⟩
  | some roomId =>
    let r := removeUserFromRoom st sid roomId
    ⟨r.1, r.2 ++ [.userLeft roomId sid], false⟩

/-- The `start-game` handler (src/server.js lines 236-259). -/
def startGame (st : ServerState) (sid : String) : Effect :=
  match aget st.userRooms sid with
  | none => ⟨st, [], false⟩
  | some roomId =>
    match aget st.rooms roomId with
    | none => ⟨st, [.roomError sid "Cannot start game"], false⟩
    | some room =>
      if !(room.host == sid) || room.gameStarted then
        ⟨st, [.roomError sid "Cannot start game"], false⟩
      else if room.users.length < 2 then
        ⟨st, [.roomError sid "Need at least 2 players"], false⟩
      else
        ⟨⟨aset st.rooms roomId { room with gameStarted := true }, st.userRooms⟩,
         [.gameStartedEv roomId], false⟩

/-- The periodic cleanup sweep (src/server.js lines 343-363): delete rooms
older than one hour and drop their members' `userRooms` entries. -/
def cleanupRooms (st : ServerState) (now : ℕ) : ServerState :=
  let isOld := fun (r : Room) => decide (3600000 < now - r.createdAt)
  ⟨st.rooms.filter (fun p => !(isOld p.2)),
   st.userRooms.filter (fun q =>
     !(st.rooms.any (fun p => isOld p.2 && p.2.users.contains q.1)))⟩

/-- One state-mutating inbound event. -/
inductive Op
  | create (sid : String) (inp : CreateInput) (rng : ℕ → ℕ) (now : ℕ)
  | join (sid : String) (inp : JoinInput)
  | leave (sid : String)
  | disc (sid : String)
  | start (sid : String)
  | sweep (now : ℕ)

/-- Dispatch one operation. -/
def applyOp (st : ServerState) : Op → Effect
  | .create sid inp rng now => createRoom st sid inp rng now
  | .join sid inp => joinRoom st sid inp
  | .leave sid => leaveRoom st sid
  | .disc sid => leaveRoom st sid
  | .start sid => startGame st sid
  | .sweep now => ⟨cleanupRooms st now, [], false⟩

/-- The state after a sequence of operations. -/
def runOps (st : ServerState) (ops : List Op) : ServerState :=
  ops.foldl (fun s op => (applyOp s op).state) st

/-- The server starts with empty maps. -/
def initState : ServerState := ⟨[], []⟩

/-- Holds (as `true`) when `sid` is in the member set of the room stored at `code`. -/
def memberOf (st : ServerState) (sid code : String) : Bool :=
  match aget st.rooms code with
  | some r => r.users.contains sid
  | none => false

/-- Every stored room respects its capacity. -/
def capOK (st : ServerState) : Prop :=
  ∀ p ∈ st.rooms, ((p.2.users.length : Int) ≤ p.2.settings.maxUsers)

/-! ## Admission (src/unnamed/part_000, nickname-aware variant, lines 239-266) -/

/-- The identity maps of the nickname-aware variant: `activeNicknames`
(device id → nickname) and `socketToUser` (socket id → (nickname, device id)). -/
structure AdmState where
  activeNicknames : List (String × String)
  socketToUser : List (String × (String × String))
deriving DecidableEq

/-- Result of the admission prologue of the connection handler. -/
structure AdmEffect where
  state : AdmState
  events : List SEvent
  disconnect : Bool
deriving DecidableEq

/-- The admission prologue of the connection handler: reject malformed
credentials with disconnect; if the device already holds a *different*
nickname, update the binding unchecked; otherwise reject with
`nickname-taken` and disconnect when any device currently holds the
nickname, else bind it.  `auth` is `none` for a missing/falsy credentials
object; empty strings model falsy fields. -/
def admitConn (st : AdmState) (sid : String) (auth : Option (String × String)) :
    AdmEffect :=
  match auth with
  | none => ⟨st, [.roomError sid "Invalid user credentials"], true⟩
  | some (nickname, deviceId) =>
    if (nickname == "") || (deviceId == "") then
      ⟨st, [.roomError sid "Invalid user credentials"], true⟩
    else
      let existing := aget st.activeNicknames deviceId
      if (match existing with
          | some e => !(e == "") && !(e == nickname)
          | none => false) then
        ⟨⟨aset st.activeNicknames deviceId nickname,
          aset st.socketToUser sid (nickname, deviceId)⟩, [], false⟩
      else if st.activeNicknames.any (fun p => p.2 == nickname) then
        ⟨st,
         [.nicknameTaken sid
           ("Nickname \"" ++ nickname ++ "\" is already in use. Please choose another one.")],
         true⟩
      else
        ⟨⟨aset st.activeNicknames deviceId nickname,
          aset st.socketToUser sid (nickname, deviceId)⟩, [], false⟩

/-! ## Helper lemmas -/

theorem aget_mem {α : Type} {l : List (String × α)} {k : String} {v : α}
    (h : aget l k = some v) : (k, v) ∈ l := by
  induction l with
  | nil => simp [aget] at h
  | cons p t ih =>
    by_cases hp : (p.1 == k) = true
    · simp [aget, hp] at h
      have h1 : p.1 = k := by simpa using hp
      cases p
      simp_all
    · simp [aget, hp] at h
      exact List.mem_cons_of_mem _ (ih h)

theorem mem_aset {α : Type} {l : List (String × α)} {k : String} {v : α}
    {p : String × α} (h : p ∈ aset l k v) : p = (k, v) ∨ p ∈ l := by
  induction l with
  | nil => simp [aset] at h; simp [h]
  | cons q t ih =>
    by_cases hq : (q.1 == k) = true
    · simp [aset, hq] at h
      rcases h with h | h
      · left; simp [h]
      · right; exact List.mem_cons_of_mem _ h
    · simp [aset, hq] at h
      rcases h with h | h
      · right; simp [h]
      · rcases ih h with h' | h'
        · left; exact h'
        · right; exact List.mem_cons_of_mem _ h'

theorem aget_aset_self {α : Type} (l : List (String × α)) (k : String) (v : α) :
    aget (aset l k v) k = some v := by
  induction l with
  | nil => simp [aset, aget]
  | cons q t ih =>
    by_cases hq : (q.1 == k) = true
    · simp [aset, hq, aget]
    · simp [aset, hq, aget, ih]

theorem aget_adel_self {α : Type} (l : List (String × α)) (k : String) :
    aget (adel l k) k = none := by
  induction l with
  | nil => simp [adel, aget]
  | cons q t ih =>
    by_cases hq : (q.1 == k) = true
    · simpa [adel, hq] using ih
    · simp only [adel, List.filter] at ih ⊢
      simp [hq, aget, ih]

theorem validateSettingsObj_maxUsers {s : Settings}
    (h : validateSettingsObj s = true) : 2 ≤ s.maxUsers := by
  simp only [validateSettingsObj, Bool.and_eq_true, decide_eq_true_eq] at h
  exact h.1.1.1.1.1

theorem decDigits_eq_digits :
    ∀ fuel n : ℕ, n ≤ fuel → decDigits fuel n = Nat.digits 10 n := by
  intro fuel
  induction fuel with
  | zero =>
    intro n h
    interval_cases n
    simp [decDigits]
  | succ fuel ih =>
    intro n h
    by_cases hn : n = 0
    · simp [decDigits, hn]
    · have h10 : n / 10 ≤ fuel := by
        have := Nat.div_lt_self (Nat.pos_of_ne_zero hn) (by norm_num : 1 < 10)
        omega
      rw [decDigits, if_neg hn, ih _ h10,
        ← Nat.digits_def' (by norm_num : 1 < 10) (Nat.pos_of_ne_zero hn)]

theorem isSixDigitCode_natToString {n : ℕ} (h1 : 100000 ≤ n)
    (h2 : n < 1000000) : isSixDigitCode (natToString n) = true := by
  have hn : n ≠ 0 := by omega
  rw [natToString, decDigits_eq_digits n n le_rfl]
  have hlen : (Nat.digits 10 n).length = 6 := by
    rw [Nat.digits_len 10 n (by norm_num) hn]
    have hlog : Nat.log 10 n = 5 :=
      Nat.log_eq_of_pow_le_of_lt_pow (by norm_num; omega) (by norm_num; omega)
    omega
  simp only [isSixDigitCode, natToString, Bool.and_eq_true, beq_iff_eq]
  constructor
  · show (List.asString _).length = 6
    simp [List.asString, String.length, hlen]
  · rw [List.all_eq_true]
    intro c hc
    have hc' : c ∈ (Nat.digits 10 n).reverse.map Nat.digitChar := hc
    simp only [List.mem_map, List.mem_reverse] at hc'
    obtain ⟨d, hd, rfl⟩ := hc'
    have hdlt : d < 10 := Nat.digits_lt_base (by norm_num) hd
    interval_cases d <;> decide

theorem genAttempts_shape (rooms : List (String × Room)) (rng : ℕ → ℕ) :
    ∀ fuel j, ∃ i, j ≤ i ∧
      genAttempts rooms rng j fuel = generateRoomId (rng i) := by
  intro fuel
  induction fuel with
  | zero => intro j; exact ⟨j, le_rfl, rfl⟩
  | succ fuel ih =>
    intro j
    simp only [genAttempts]
    by_cases hc : ((aget rooms (generateRoomId (rng j))).isSome &&
        decide (j + 1 < 10)) = true
    · rw [if_pos hc]
      obtain ⟨i, hi, he⟩ := ih (j + 1)
      exact ⟨i, by omega, he⟩
    · rw [if_neg hc]
      exact ⟨j, le_rfl, rfl⟩

theorem genAttempts_fresh (rooms : List (String × Room)) (rng : ℕ → ℕ) :
    ∀ fuel j, 10 ≤ j + fuel →
      (∃ i, j ≤ i ∧ i < 10 ∧ aget rooms (generateRoomId (rng i)) = none) →
      aget rooms (genAttempts rooms rng j fuel) = none := by
  intro fuel
  induction fuel with
  | zero =>
    intro j hj h
    obtain ⟨i, hji, hi10, _⟩ := h
    omega
  | succ fuel ih =>
    intro j hj h
    obtain ⟨i, hji, hi10, hfresh⟩ := h
    simp only [genAttempts]
    by_cases hc : ((aget rooms (generateRoomId (rng j))).isSome &&
        decide (j + 1 < 10)) = true
    · rw [if_pos hc]
      rw [Bool.and_eq_true] at hc
      apply ih (j + 1) (by omega)
      refine ⟨i, ?_, hi10, hfresh⟩
      rcases Nat.eq_or_lt_of_le hji with h' | h'
      · subst h'
        rw [hfresh] at hc
        simp at hc
      · omega
    · rw [if_neg hc]
      rw [Bool.and_eq_true] at hc
      push_neg at hc
      by_cases hsome : (aget rooms (generateRoomId (rng j))).isSome = true
      · have hj9 : ¬ (j + 1 < 10) := by
          intro hlt
          exact (hc hsome) (decide_eq_true hlt)
        have : i = j := by omega
        subst this
        exact hfresh
      · simpa using hsome

theorem capOK_mkRoomEffect {st : ServerState} {sid : String} {s : Settings}
    {code : String} {now : ℕ} (hs : 2 ≤ s.maxUsers) (h : capOK st) :
    capOK (mkRoomEffect st sid s code now).state := by
  intro p hp
  simp only [mkRoomEffect] at hp
  rcases mem_aset hp with rfl | hp'
  · simp only [List.length_singleton]
    omega
  · exact h p hp'

theorem capOK_createRoom {st : ServerState} {sid : String} {inp : CreateInput}
    {rng : ℕ → ℕ} {now : ℕ} (h : capOK st) :
    capOK (createRoom st sid inp rng now).state := by
  cases inp with
  | notObject => exact h
  | obj roomId oset =>
    by_cases hv : validateSettings oset = true
    · cases oset with
      | none => simp [validateSettings] at hv
      | some s =>
        have hs : 2 ≤ s.maxUsers :=
          validateSettingsObj_maxUsers (by simpa [validateSettings] using hv)
        cases roomId with
        | none =>
          simpa [createRoom, hv] using capOK_mkRoomEffect hs h
        | some c =>
          simp only [createRoom, hv, Bool.not_true, Bool.false_eq_true,
            if_false]
          by_cases hce : (c == "") = true
          · simpa [hce] using capOK_mkRoomEffect hs h
          · simp only [hce, Bool.false_eq_true, if_false]
            by_cases hsd : isSixDigitCode c = true
            · simp only [hsd, Bool.not_true, Bool.false_eq_true, if_false]
              by_cases hhr : hasRoom st c = true
              · simpa [hhr] using h
              · simp only [hhr, if_false]
                exact capOK_mkRoomEffect hs h
            · simp only [Bool.not_eq_true] at hsd
              simpa [hsd] using h
    · simp only [Bool.not_eq_true] at hv
      simpa [createRoom, hv] using h

theorem capOK_joinRoom {st : ServerState} {sid : String} {inp : JoinInput}
    (h : capOK st) : capOK (joinRoom st sid inp).state := by
  unfold joinRoom
  cases hr : extractRoomId inp with
  | vstr code =>
    by_cases hbad : ((code == "") || !(isSixDigitCode code)) = true
    · simpa [hbad] using h
    · simp only [hbad, Bool.false_eq_true, if_false]
      cases hg : aget st.rooms code with
      | none => exact h
      | some room =>
        have hmem : (code, room) ∈ st.rooms := aget_mem hg
        have hcap : ((room.users.length : Int) ≤ room.settings.maxUsers) :=
          h _ hmem
        dsimp only
        split_ifs with h1 h2 h3 h4 h5
        · exact h
        · exact h
        · exact h
        · exact h
        · exact h
        · intro p hp
          rcases mem_aset hp with rfl | hp'
          · simp only [List.length_append, List.length_singleton]
            push_cast
            omega
          · exact h p hp'
  | vnum n => simpa using h
  | vbool b => simpa using h
  | vnull => simpa using h
  | vundefined => simpa using h

theorem capOK_removeUserFromRoom {st : ServerState} {uid rid : String}
    (h : capOK st) : capOK (removeUserFromRoom st uid rid).1 := by
  unfold removeUserFromRoom
  cases hg : aget st.rooms rid with
  | none => exact h
  | some room =>
    have hmem : (rid, room) ∈ st.rooms := aget_mem hg
    have hcap : ((room.users.length : Int) ≤ room.settings.maxUsers) :=
      h _ hmem
    have herase : (room.users.erase uid).length ≤ room.users.length :=
      (room.users.erase_sublist uid).length_le
    dsimp only
    split_ifs with h1 h2
    · intro p hp
      exact h p (List.mem_of_mem_filter hp)
    · intro p hp
      rcases mem_aset hp with rfl | hp'
      · simp only
        push_cast at hcap ⊢
        omega
      · exact h p hp'
    · intro p hp
      rcases mem_aset hp with rfl | hp'
      · simp only
        push_cast at hcap ⊢
        omega
      · exact h p hp'

theorem capOK_leaveRoom {st : ServerState} {sid : String} (h : capOK st) :
    capOK (leaveRoom st sid).state := by
  unfold leaveRoom
  cases hg : aget st.userRooms sid with
  | none => exact h
  | some roomId => exact capOK_removeUserFromRoom h

theorem capOK_startGame {st : ServerState} {sid : String} (h : capOK st) :
    capOK (startGame st sid).state := by
  unfold startGame
  cases hg : aget st.userRooms sid with
  | none => exact h
  | some roomId =>
    dsimp only
    cases hg2 : aget st.rooms roomId with
    | none => exact h
    | some room =>
      have hmem : (roomId, room) ∈ st.rooms := aget_mem hg2
      have hcap : ((room.users.length : Int) ≤ room.settings.maxUsers) :=
        h _ hmem
      dsimp only
      split_ifs with h1 h2
      · exact h
      · exact h
      · intro p hp
        rcases mem_aset hp with rfl | hp'
        · exact hcap
        · exact h p hp'

theorem capOK_cleanupRooms {st : ServerState} {now : ℕ} (h : capOK st) :
    capOK (cleanupRooms st now) := by
  intro p hp
  exact h p (List.mem_of_mem_filter hp)

theorem capOK_applyOp {st : ServerState} {op : Op} (h : capOK st) :
    capOK (applyOp st op).state := by
  cases op with
  | create sid inp rng now => exact capOK_createRoom h
  | join sid inp => exact capOK_joinRoom h
  | leave sid => exact capOK_leaveRoom h
  | disc sid => exact capOK_leaveRoom h
  | start sid => exact capOK_startGame h
  | sweep now => exact capOK_cleanupRooms h

theorem capOK_runOps (ops : List Op) : capOK (runOps initState ops) := by
  have hgen : ∀ (l : List Op) (st : ServerState), capOK st →
      capOK (runOps st l) := by
    intro l
    induction l with
    | nil => intro st h; exact h
    | cons op t ih =>
      intro st h
      exact ih _ (capOK_applyOp h)
  apply hgen
  intro p hp
  simp [initState] at hp

/-! ## Concrete fixtures used by witnesses and counterexamples -/

/-- Valid public settings (capacity 4). -/
def sampleSettings : Settings :=
  { maxUsers := 4, answerTime := 30, questionCount := 5, isPrivate := false,
    password := none, roomName := "Quiz" }

/-- Valid public settings (capacity 2). -/
def duoSettings : Settings :=
  { maxUsers := 2, answerTime := 30, questionCount := 5, isPrivate := false,
    password := none, roomName := "Quiz" }

/-- Invalid settings: capacity 1 is below the allowed range. -/
def badSettings : Settings :=
  { maxUsers := 1, answerTime := 30, questionCount := 5, isPrivate := false,
    password := none, roomName := "Quiz" }

/-- A stored room with host `H` and member `B`. -/
def sampleRoom : Room :=
  { id := "123456", host := "H", users := ["H", "B"],
    settings := sampleSettings, gameStarted := false, createdAt := 0 }

/-- A store holding `sampleRoom` under code `123456`. -/
def sampleState : ServerState :=
  ⟨[("123456", sampleRoom)], [("H", "123456"), ("B", "123456")]⟩

/-- Variant of `sampleRoom` with a single member `A` who is also host. -/
def soloRoom : Room := { sampleRoom with users := ["A"], host := "A" }

/-- A store holding `soloRoom`. -/
def soloState : ServerState := ⟨[("123456", soloRoom)], [("A", "123456")]⟩

/-- A room at capacity (2 of 2), not yet started. -/
def fullRoom : Room :=
  { id := "123456", host := "H", users := ["H", "B"],
    settings := duoSettings, gameStarted := false, createdAt := 0 }

/-- A store holding `fullRoom`. -/
def fullState : ServerState :=
  ⟨[("123456", fullRoom)], [("H", "123456"), ("B", "123456")]⟩

/-- A room at capacity whose game has already started. -/
def startedFullRoom : Room := { fullRoom with gameStarted := true }

/-- A store holding `startedFullRoom`. -/
def startedFullState : ServerState :=
  ⟨[("123456", startedFullRoom)], [("H", "123456"), ("B", "123456")]⟩

/-- A 2-capacity room with one member. -/
def nearRoom : Room :=
  { id := "123456", host := "H", users := ["H"],
    settings := duoSettings, gameStarted := false, createdAt := 0 }

/-- A store holding `nearRoom`. -/
def nearState : ServerState := ⟨[("123456", nearRoom)], [("H", "123456")]⟩

/-- A store whose only room sits at code `100000`, the code produced by
the zero random draw. -/
def collideState : ServerState :=
  ⟨[("100000",
     { id := "100000", host := "H", users := ["H"],
       settings := sampleSettings, gameStarted := false, createdAt := 0 })],
   [("H", "100000")]⟩

/-- State reached by: `A` creates room 111111, `B` creates room 222222,
then `A` (already a member and host of 111111) joins 222222. -/
def dualJoinState : ServerState :=
  let e1 := createRoom initState "A"
    (.obj (some "111111") (some sampleSettings)) (fun _ => 0) 0
  let e2 := createRoom e1.state "B"
    (.obj (some "222222") (some sampleSettings)) (fun _ => 0) 0
  (joinRoom e2.state "A" (.jstr "222222")).state

/-- Admission run: `d1` claims `Ann`, `d2` claims `Bee`, then `d2`
re-claims `Ann` while `d1` still holds it. -/
def admitTrace : AdmEffect :=
  let e1 := admitConn ⟨[], []⟩ "c1" (some ("Ann", "d1"))
  let e2 := admitConn e1.state "c2" (some ("Bee", "d2"))
  admitConn e2.state "c3" (some ("Ann", "d2"))

/-! ## Claims -/

/-- Claim C4 (code_bug evaluation): admission is *not* rejected exactly when
the claimed name is bound to a different durable identifier.  First, a device
re-claiming its own current nickname is rejected with `nickname-taken` and
disconnected, although the name is bound to the claimant itself.  Second, a
device renaming itself onto a nickname held by a *different* device is
accepted and the binding updated, with no rejection. -/
theorem C4_admission_reclaim_bug :
    ((admitConn ⟨[("d1", "Ann")], []⟩ "s2" (some ("Ann", "d1"))).events =
        [SEvent.nicknameTaken "s2"
          "Nickname \"Ann\" is already in use. Please choose another one."] ∧
      (admitConn ⟨[("d1", "Ann")], []⟩ "s2" (some ("Ann", "d1"))).disconnect = true) ∧
    ((admitConn ⟨[("d1", "Ann"), ("d2", "Bee")], []⟩ "s3"
        (some ("Ann", "d2"))).disconnect = false ∧
      (admitConn ⟨[("d1", "Ann"), ("d2", "Bee")], []⟩ "s3"
        (some ("Ann", "d2"))).events = [] ∧
      aget (admitConn ⟨[("d1", "Ann"), ("d2", "Bee")], []⟩ "s3"
        (some ("Ann", "d2"))).state.activeNicknames "d2" = some "Ann") := by
  decide

/-- Claim C5 (code_bug evaluation): after the successful admissions
`(c1, Ann, d1)`, `(c2, Bee, d2)`, `(c3, Ann, d2)`, the distinct durable
identifiers `d1` and `d2` are simultaneously bound to the display name
`Ann`: the rename path breaks display-name uniqueness. -/
theorem C5_uniqueness_violated :
    admitTrace.disconnect = false ∧ admitTrace.events = [] ∧
    aget admitTrace.state.activeNicknames "d1" = some "Ann" ∧
    aget admitTrace.state.activeNicknames "d2" = some "Ann" := by
  decide

/-- Claim C6 (code_bug evaluation): after `A` creates room 111111 and then
joins room 222222, connection `A` is in the member sets of two different
rooms at once, and the `userRooms` back-reference names only the second. -/
theorem C6_dual_membership :
    memberOf dualJoinState "A" "111111" = true ∧
    memberOf dualJoinState "A" "222222" = true ∧
    aget dualJoinState.userRooms "A" = some "222222" := by
  decide

/-- Claim C2: removing the host of a stored room leaves, when at least one
member remains, exactly one `new-host` notification, and the updated room's
host field is a current member (the first remaining member); removing the
last member deletes the room, so a subsequent lookup of the code fails. -/
theorem C2_host_reelection_and_deletion (st : ServerState) (uid rid : String)
    (room : Room) (hg : aget st.rooms rid = some room) :
    (room.host = uid → room.users.erase uid ≠ [] →
      (removeUserFromRoom st uid rid).2 =
        [SEvent.newHost rid (room.users.erase uid).headI] ∧
      ∃ room', aget (removeUserFromRoom st uid rid).1.rooms rid = some room' ∧
        room'.host = (room.users.erase uid).headI ∧ room'.host ∈ room'.users) ∧
    (room.users.erase uid = [] →
      aget (removeUserFromRoom st uid rid).1.rooms rid = none) := by
  unfold removeUserFromRoom
  rw [hg]
  dsimp only
  split_ifs with h1 h2
  · constructor
    · intro _ hne
      exact absurd (List.length_eq_zero.mp (by simpa using h1)) hne
    · intro _
      exact aget_adel_self _ _
  · constructor
    · intro _ hne
      refine ⟨rfl, _, aget_aset_self _ _ _, rfl, ?_⟩
      cases h' : room.users.erase uid with
      | nil => exact absurd h' hne
      | cons a t => simp [h', List.headI]
    · intro he
      rw [he] at h1
      simp at h1
  · constructor
    · intro hh _
      exact absurd (beq_iff_eq.mpr hh) h2
    · intro he
      rw [he] at h1
      simp at h1

/-- Witness for C2 at concrete inputs: removing host `H` from
`sampleRoom` (members `H`, `B`) elects `B` with a single `new-host`
event; removing the only member `A` of `soloRoom` deletes the room. -/
theorem C2_witness :
    (removeUserFromRoom sampleState "H" "123456").2 =
      [SEvent.newHost "123456" "B"] ∧
    aget (removeUserFromRoom soloState "A" "123456").1.rooms "123456" =
      none := by
  constructor
  · exact ((C2_host_reelection_and_deletion sampleState "H" "123456"
      sampleRoom (by decide)).1 (by decide) (by decide)).1
  · exact (C2_host_reelection_and_deletion soloState "A" "123456"
      soloRoom (by decide)).2 (by decide)

/-- Counterexample for C9: connection `X` is in no room (`userRooms` has no
entry for it), yet `start-game` emits no failure event at all — the handler
returns silently instead of failing with `NotHost`. -/
theorem C9_counterexample :
    (startGame sampleState "X").events = [] ∧
    (startGame sampleState "X").state = sampleState := by
  decide

/-- Claim C9 as amended: a connection that is in a room it does not host
fails with the `NotHost` error (`Cannot start game`) and the whole server
state — in particular every started flag — is unchanged; a connection in no
room receives no response at all and the state is also unchanged. -/
theorem C9_nonhost_start (st : ServerState) (sid rid : String) (room : Room) :
    (aget st.userRooms sid = some rid → aget st.rooms rid = some room →
      room.host ≠ sid →
      startGame st sid =
        ⟨st, [SEvent.roomError sid "Cannot start game"], false⟩) ∧
    (aget st.userRooms sid = none → startGame st sid = ⟨st, [], false⟩) := by
  constructor
  · intro h1 h2 h3
    unfold startGame
    rw [h1]
    dsimp only
    rw [h2]
    dsimp only
    rw [if_pos]
    have hb : (room.host == sid) = false := by
      simpa using h3
    simp [hb]
  · intro h1
    unfold startGame
    rw [h1]
  
/-- Witness for C9 at concrete inputs: member `B` (not the host) gets the
`Cannot start game` error with the state unchanged; `X`, in no room, gets
nothing. -/
theorem C9_witness :
    startGame sampleState "B" =
      ⟨sampleState, [SEvent.roomError "B" "Cannot start game"], false⟩ ∧
    startGame initState "X" = ⟨initState, [], false⟩ := by
  constructor
  · exact (C9_nonhost_start sampleState "B" "123456" sampleRoom).1
      (by decide) (by decide) (by decide)
  · exact (C9_nonhost_start initState "X" "123456" sampleRoom).2 (by decide)

/-- Claim C10: a join-room request whose room id is absent, not a string,
or not exactly six digits is answered with the generic `room-error` and the
state is returned unchanged — for *every* store contents, so the store is
never consulted; and the `Room does not exist` outcome can only occur when
the extracted room id passes the six-digit validation. -/
theorem C10_malformed_join (st : ServerState) (sid : String)
    (inp : JoinInput) :
    (roomIdValid (extractRoomId inp) = false →
      joinRoom st sid inp =
        ⟨st, [SEvent.roomError sid "Invalid room ID. Must be 6 digits."],
         false⟩) ∧
    (SEvent.roomError sid "Room does not exist" ∈ (joinRoom st sid inp).events →
      roomIdValid (extractRoomId inp) = true) := by
  unfold joinRoom
  cases hr : extractRoomId inp with
  | vstr code =>
    dsimp only
    by_cases hbad : ((code == "") || !(isSixDigitCode code)) = true
    · rw [if_pos hbad]
      constructor
      · intro _
        rfl
      · intro hmem
        simp at hmem
    · rw [if_neg hbad]
      have hvalid : roomIdValid (JVal.vstr code) = true := by
        simp only [Bool.or_eq_true, Bool.not_eq_true'] at hbad
        push_neg at hbad
        simp [roomIdValid, hbad.1, hbad.2]
      constructor
      · intro hcontra
        rw [hvalid] at hcontra
        cases hcontra
      · intro _
        exact hvalid
  | vnum n =>
    exact ⟨fun _ => rfl, fun hmem => by simp at hmem⟩
  | vbool b =>
    exact ⟨fun _ => rfl, fun hmem => by simp at hmem⟩
  | vnull =>
    exact ⟨fun _ => rfl, fun hmem => by simp at hmem⟩
  | vundefined =>
    exact ⟨fun _ => rfl, fun hmem => by simp at hmem⟩

/-- Witness for C10 at concrete inputs: a numeric room id is rejected with
the generic error although the store does contain a room, and a run that
does produce `Room does not exist` used a well-formed six-digit id. -/
theorem C10_witness :
    joinRoom sampleState "S" (.jobj (JVal.vnum 123456) JVal.vundefined) =
      ⟨sampleState, [SEvent.roomError "S" "Invalid room ID. Must be 6 digits."],
       false⟩ ∧
    roomIdValid (extractRoomId (JoinInput.jstr "654321")) = true := by
  constructor
  · exact (C10_malformed_join sampleState "S"
      (.jobj (JVal.vnum 123456) JVal.vundefined)).1 (by decide)
  · exact (C10_malformed_join initState "S" (JoinInput.jstr "654321")).2
      (by decide)

/-- Counterexample for C3: requesting the already-taken code `123456` with
*invalid* settings yields the `Invalid game settings` error, not the
`CodeTaken` error — so `CodeTaken` is not produced "regardless of settings
validity". -/
theorem C3_counterexample :
    hasRoom sampleState "123456" = true ∧
    validateSettingsObj badSettings = false ∧
    createRoom sampleState "S" (.obj (some "123456") (some badSettings))
        (fun _ => 0) 0 =
      ⟨sampleState, [SEvent.roomError "S" "Invalid game settings"], false⟩ := by
  decide

/-- Claim C3 as amended: *provided the supplied settings are valid*, a
requested six-digit code that is already a key of the store yields the
`CodeTaken` error, and a requested non-empty code that is not six digits
yields the `MalformedCode` error; in both cases the state is unchanged.
(With invalid settings the handler answers `Invalid game settings` before
looking at the code.) -/
theorem C3_code_errors (st : ServerState) (sid : String) (s : Settings)
    (c : String) (rng : ℕ → ℕ) (now : ℕ)
    (hv : validateSettingsObj s = true) :
    (isSixDigitCode c = true → hasRoom st c = true →
      createRoom st sid (.obj (some c) (some s)) rng now =
        ⟨st, [SEvent.roomError sid "Room ID already exists"], false⟩) ∧
    (c ≠ "" → isSixDigitCode c = false →
      createRoom st sid (.obj (some c) (some s)) rng now =
        ⟨st, [SEvent.roomError sid "Room ID must be exactly 6 digits"],
         false⟩) := by
  have hv' : validateSettings (some s) = true := hv
  constructor
  · intro hsix htaken
    have hne : (c == "") = false := by
      have : c ≠ "" := by
        intro h
        rw [h] at hsix
        exact absurd hsix (by decide)
      simpa using this
    unfold createRoom
    simp only [hv', Bool.not_true, Bool.false_eq_true, if_false]
    rw [if_neg (by simp [hne]), if_neg (by simp [hsix]), if_pos htaken]
  · intro hne hsix
    have hne' : (c == "") = false := by simpa using hne
    unfold createRoom
    simp only [hv', Bool.not_true, Bool.false_eq_true, if_false]
    rw [if_neg (by simp [hne']), if_pos (by simp [hsix])]

/-- Witness for C3 at concrete inputs: with valid settings, requesting the
taken code `123456` yields `CodeTaken` and requesting the malformed code
`12345` yields `MalformedCode`. -/
theorem C3_witness :
    createRoom sampleState "S" (.obj (some "123456") (some duoSettings))
        (fun _ => 0) 0 =
      ⟨sampleState, [SEvent.roomError "S" "Room ID already exists"], false⟩ ∧
    createRoom sampleState "S" (.obj (some "12345") (some duoSettings))
        (fun _ => 0) 0 =
      ⟨sampleState, [SEvent.roomError "S" "Room ID must be exactly 6 digits"],
       false⟩ := by
  constructor
  · exact (C3_code_errors sampleState "S" duoSettings "123456" (fun _ => 0) 0
      (by decide)).1 (by decide) (by decide)
  · exact (C3_code_errors sampleState "S" duoSettings "12345" (fun _ => 0) 0
      (by decide)).2 (by decide) (by decide)

/-- Counterexample for C8: when every random draw is 0, all ten generated
candidates are `100000`, which is already a key of the store; the handler
gives up after ten attempts and replies `room-created` with the *colliding*
code `100000` (overwriting the stored room), so the returned code is not
"not currently in the store". -/
theorem C8_counterexample :
    hasRoom collideState "100000" = true ∧
    (createRoom collideState "S" (.obj none (some sampleSettings))
        (fun _ => 0) 0).events =
      [SEvent.roomCreated "S" "100000", SEvent.existingUsersEv "S" []] := by
  decide

/-- Claim C8 as amended: with valid settings and no requested code, the
handler always replies `room-created` with the generated code, the
generated code is always a string of exactly six ASCII digits, and it is
absent from the store *provided at least one of the first ten random draws
yields a fresh code*; when all ten draws collide, the colliding tenth draw
is used (bounded-retry policy). -/
theorem C8_generated_code (st : ServerState) (sid : String) (s : Settings)
    (rng : ℕ → ℕ) (now : ℕ) (hv : validateSettingsObj s = true)
    (hr : ∀ i, rng i < 900000) :
    createRoom st sid (.obj none (some s)) rng now =
      mkRoomEffect st sid s (genAttempts st.rooms rng 0 10) now ∧
    (createRoom st sid (.obj none (some s)) rng now).events =
      [SEvent.roomCreated sid (genAttempts st.rooms rng 0 10),
       SEvent.existingUsersEv sid []] ∧
    isSixDigitCode (genAttempts st.rooms rng 0 10) = true ∧
    ((∃ i, i < 10 ∧ aget st.rooms (generateRoomId (rng i)) = none) →
      aget st.rooms (genAttempts st.rooms rng 0 10) = none) := by
  have hv' : validateSettings (some s) = true := hv
  have heq : createRoom st sid (.obj none (some s)) rng now =
      mkRoomEffect st sid s (genAttempts st.rooms rng 0 10) now := by
    unfold createRoom
    simp only [hv', Bool.not_true, Bool.false_eq_true, if_false]
  refine ⟨heq, by rw [heq]; rfl, ?_, ?_⟩
  · obtain ⟨i, _, hshape⟩ := genAttempts_shape st.rooms rng 10 0
    rw [hshape]
    unfold generateRoomId
    exact isSixDigitCode_natToString (by omega) (by have := hr i; omega)
  · intro ⟨i, hi, hfresh⟩
    exact genAttempts_fresh st.rooms rng 10 0 (by omega)
      ⟨i, Nat.zero_le i, hi, hfresh⟩

/-- Witness for C8 at concrete inputs: on the empty store with the all-zero
random stream, creation succeeds, the generated code is six digits, and it
is not in the store. -/
theorem C8_witness :
    isSixDigitCode (genAttempts initState.rooms (fun _ => 0) 0 10) = true ∧
    aget initState.rooms (genAttempts initState.rooms (fun _ => 0) 0 10) =
      none ∧
    (createRoom initState "S" (.obj none (some sampleSettings))
        (fun _ => 0) 0).events =
      [SEvent.roomCreated "S" (genAttempts initState.rooms (fun _ => 0) 0 10),
       SEvent.existingUsersEv "S" []] := by
  have h := C8_generated_code initState "S" sampleSettings (fun _ => 0) 0
    (by decide) (fun i => by norm_num)
  exact ⟨h.2.2.1, h.2.2.2 ⟨0, by norm_num, rfl⟩, h.2.1⟩

/-- Counterexample for C7: a genuine `NameInUse` admission failure (`Ann`
is bound to device `d1`, a fresh device `d2` claims it) terminates the
connection — `socket.disconnect()` is called — although the claim says
only malformed credentials do so. -/
theorem C7_counterexample :
    (admitConn ⟨[("d1", "Ann")], []⟩ "s2" (some ("Ann", "d2"))).events =
      [SEvent.nicknameTaken "s2"
        "Nickname \"Ann\" is already in use. Please choose another one."] ∧
    (admitConn ⟨[("d1", "Ann")], []⟩ "s2" (some ("Ann", "d2"))).disconnect =
      true := by
  decide

/-- Claim C7 as amended: every room-operation failure is reported to the
originating connection as a named event and never terminates the connection
(no room handler ever disconnects); admission failures are the exception:
malformed credentials are answered with `room-error` and an immediate
disconnect, and a `NameInUse` rejection is answered with `nickname-taken`
and also an immediate disconnect. -/
theorem C7_error_reporting :
    (∀ st sid inp, (joinRoom st sid inp).disconnect = false) ∧
    (∀ st sid inp rng now, (createRoom st sid inp rng now).disconnect = false) ∧
    (∀ st sid, (startGame st sid).disconnect = false) ∧
    (∀ st sid, (leaveRoom st sid).disconnect = false) ∧
    (∀ st sid, (admitConn st sid none).events =
        [SEvent.roomError sid "Invalid user credentials"] ∧
      (admitConn st sid none).disconnect = true) ∧
    (∀ st sid n d, n ≠ "" → d ≠ "" →
      (∀ e, aget st.activeNicknames d = some e → e = n) →
      st.activeNicknames.any (fun p => p.2 == n) = true →
      (admitConn st sid (some (n, d))).events =
        [SEvent.nicknameTaken sid
          ("Nickname \"" ++ n ++ "\" is already in use. Please choose another one.")] ∧
      (admitConn st sid (some (n, d))).disconnect = true) := by
  refine ⟨?_, ?_, ?_, ?_, ?_, ?_⟩
  · intro st sid inp
    unfold joinRoom
    repeat' split
    all_goals rfl
  · intro st sid inp rng now
    unfold createRoom
    repeat' split
    all_goals rfl
  · intro st sid
    unfold startGame
    repeat' split
    all_goals rfl
  · intro st sid
    unfold leaveRoom
    repeat' split
    all_goals rfl
  · intro st sid
    exact ⟨rfl, rfl⟩
  · intro st sid n d hn hd hown hinuse
    have hn' : (n == "") = false := by simpa using hn
    have hd' : (d == "") = false := by simpa using hd
    unfold admitConn
    simp only [hn', hd', Bool.or_self, Bool.false_eq_true, if_false]
    have hguard : (match aget st.activeNicknames d with
        | some e => !(e == "") && !(e == n)
        | none => false) = false := by
      cases hg : aget st.activeNicknames d with
      | none => rfl
      | some e =>
        have : e = n := hown e hg
        simp [this]
    rw [hguard]
    simp only [Bool.false_eq_true, if_false, hinuse, if_true]
    constructor <;> first | rfl | trivial

/-- Witness for C7 at concrete inputs: a failing join does not disconnect; a
failing create does not disconnect; a non-host start does not disconnect; a
no-op leave does not disconnect; malformed credentials disconnect with the
`room-error` reply; a `NameInUse` rejection disconnects with the
`nickname-taken` reply. -/
theorem C7_witness :
    (joinRoom fullState "C" (.jstr "123456")).disconnect = false ∧
    (createRoom sampleState "S" (.obj (some "123456") (some badSettings))
      (fun _ => 0) 0).disconnect = false ∧
    (startGame sampleState "B").disconnect = false ∧
    (leaveRoom initState "X").disconnect = false ∧
    (admitConn ⟨[], []⟩ "s1" none).disconnect = true ∧
    (admitConn ⟨[("d1", "Ann")], []⟩ "s3" (some ("Ann", "d3"))).events =
      [SEvent.nicknameTaken "s3"
        "Nickname \"Ann\" is already in use. Please choose another one."] := by
  refine ⟨C7_error_reporting.1 fullState "C" (.jstr "123456"),
    C7_error_reporting.2.1 sampleState "S"
      (.obj (some "123456") (some badSettings)) (fun _ => 0) 0,
    C7_error_reporting.2.2.1 sampleState "B",
    C7_error_reporting.2.2.2.1 initState "X",
    (C7_error_reporting.2.2.2.2.1 ⟨[], []⟩ "s1").2,
    (C7_error_reporting.2.2.2.2.2 ⟨[("d1", "Ann")], []⟩ "s3" "Ann" "d3"
      (by decide) (by decide) ?_ (by decide)).1⟩
  intro e he
  simp [aget] at he

theorem sixDigit_ne_nil {c : String} (h : isSixDigitCode c = true) :
    (c == "") = false := by
  simp only [isSixDigitCode, Bool.and_eq_true, beq_iff_eq] at h
  have hne : c ≠ "" := by
    intro he
    rw [he] at h
    simp at h
  simpa using hne

/-- Counterexample for C1: room `123456` is at capacity (2 of 2) but its
game has started; a further join fails with `Game already in progress`,
not with the `Room is full` error the claim promises for every join into
a room at capacity. -/
theorem C1_counterexample :
    ((startedFullRoom.users.length : Int) =
      startedFullRoom.settings.maxUsers) ∧
    (joinRoom startedFullState "C" (.jstr "123456")).events =
      [SEvent.roomError "C" "Game already in progress"] := by
  decide

/-- Claim C1 as amended: (1) a join aimed at a room whose member count is
at least `maxUsers` never succeeds — the state is unchanged and no
`room-joined` reply is sent (the error is `Room is full` exactly when the
earlier password and started checks pass, part 2); (2) for a public,
not-started room at capacity the failure is precisely the `Room is full`
error; (3) joining the Nth member into an N-capacity public, not-started
room succeeds and brings the member count to exactly `maxUsers`; (4) after
any sequence of operations from the initial state, every stored room's
member count is at most its `settings.maxUsers`. -/
theorem C1_capacity :
    (∀ st sid inp code room, extractRoomId inp = .vstr code →
      aget st.rooms code = some room →
      room.settings.maxUsers ≤ (room.users.length : Int) →
      (joinRoom st sid inp).state = st ∧
      ∀ c h, SEvent.roomJoined sid c h ∉ (joinRoom st sid inp).events) ∧
    (∀ st sid code room, isSixDigitCode code = true →
      aget st.rooms code = some room →
      room.settings.isPrivate = false → room.gameStarted = false →
      room.settings.maxUsers ≤ (room.users.length : Int) →
      joinRoom st sid (.jstr code) =
        ⟨st, [SEvent.roomError sid "Room is full"], false⟩) ∧
    (∀ st sid code room, isSixDigitCode code = true →
      aget st.rooms code = some room →
      room.settings.isPrivate = false → room.gameStarted = false →
      (room.users.length : Int) + 1 = room.settings.maxUsers →
      room.users.contains sid = false →
      ∃ room',
        aget (joinRoom st sid (.jstr code)).state.rooms code = some room' ∧
        room'.users = room.users ++ [sid] ∧
        (room'.users.length : Int) = room.settings.maxUsers ∧
        SEvent.roomJoined sid code room.host ∈
          (joinRoom st sid (.jstr code)).events) ∧
    (∀ ops : List Op, capOK (runOps initState ops)) := by
  refine ⟨?_, ?_, ?_, capOK_runOps⟩
  · intro st sid inp code room hx hg hfull
    unfold joinRoom
    rw [hx]
    dsimp only
    by_cases hbad : ((code == "") || !(isSixDigitCode code)) = true
    · rw [if_pos hbad]
      refine ⟨rfl, ?_⟩
      intro c h hmem
      simp at hmem
    · rw [if_neg hbad, hg]
      dsimp only
      split_ifs <;>
        exact ⟨rfl, by intro c h hmem; simp at hmem⟩
  · intro st sid code room hsix hg hpriv hstart hfull
    unfold joinRoom
    simp only [extractRoomId]
    rw [if_neg (by simp [hsix, sixDigit_ne_nil hsix]), hg]
    dsimp only
    split_ifs with h1 h2 h3
    · rw [hpriv] at h1
      simp at h1
    · rw [hpriv] at h2
      simp at h2
    · rw [hstart] at h3
      cases h3
    · rfl
  · intro st sid code room hsix hg hpriv hstart hN hnotmem
    unfold joinRoom
    simp only [extractRoomId]
    rw [if_neg (by simp [hsix, sixDigit_ne_nil hsix]), hg]
    dsimp only
    split_ifs with h1 h2 h3 h4 h5
    · rw [hpriv] at h1
      simp at h1
    · rw [hpriv] at h2
      simp at h2
    · rw [hstart] at h3
      cases h3
    · exfalso
      omega
    · rw [hnotmem] at h5
      cases h5
    · refine ⟨_, aget_aset_self _ _ _, rfl, ?_, ?_⟩
      · simp only [List.length_append, List.length_singleton]
        push_cast
        omega
      · simp

/-- Witness for C1 at concrete inputs: joining the full room `123456`
leaves the state unchanged and yields exactly the `Room is full` error;
joining the one-member 2-capacity room succeeds and fills it; and a sample
operation sequence keeps every room within capacity. -/
theorem C1_capacity_witness :
    (joinRoom fullState "C" (.jstr "123456")).state = fullState ∧
    joinRoom fullState "C" (.jstr "123456") =
      ⟨fullState, [SEvent.roomError "C" "Room is full"], false⟩ ∧
    (∃ room',
      aget (joinRoom nearState "C" (.jstr "123456")).state.rooms "123456" =
        some room' ∧
      room'.users = nearRoom.users ++ ["C"] ∧
      (room'.users.length : Int) = nearRoom.settings.maxUsers ∧
      SEvent.roomJoined "C" "123456" nearRoom.host ∈
        (joinRoom nearState "C" (.jstr "123456")).events) ∧
    capOK (runOps initState [Op.join "C" (.jstr "123456")]) := by
  refine ⟨(C1_capacity.1 fullState "C" (.jstr "123456") "123456" fullRoom
      rfl (by decide) (by decide)).1,
    C1_capacity.2.1 fullState "C" "123456" fullRoom
      (by decide) (by decide) (by decide) (by decide) (by decide),
    C1_capacity.2.2.1 nearState "C" "123456" nearRoom
      (by decide) (by decide) (by decide) (by decide) (by decide) (by decide),
    C1_capacity.2.2.2 [Op.join "C" (.jstr "123456")]⟩
